import Mathlib

/-!
Shallow embedding of the `imfconv` image-conversion library
(`src/src/imfconv.rs`).  The orchestrating type `Imfconv` and its methods
`new`, `set_image_format`, `set_color_profile` and `convert` are translated
from the source.  The collaborator modules `handler` and `reader` are not
part of the available source tree, so their behaviour is modelled from the
specification (each such definition carries a doc comment starting
`Modelled from the spec:`).

Machine integers (`u32` dimensions, `u8` pixel bytes) are modelled as `Nat`;
no arithmetic in the translated code can overflow in a way the claims
observe.  File writes are made observable by having the format handler
return the write it performs, and `convert` collect the list of writes.
The Rust `Box<dyn Error>` result type is modelled by the closed sum
`ImfError` of the three error families the spec names.
-/

/-- Image formats available in imfconv (translated from the `ImageType` enum). -/
inductive ImageType
  | JPEG
  | PNG
  | TIFF
  deriving DecidableEq

/-- Color profiles available in imfconv (translated from the `ColorProfile` enum). -/
inductive ColorProfile
  | RGB
  | GRAYSCALE
  deriving DecidableEq

/-- Modelled from the spec: decode failures of the missing `reader` module
(bad/missing source file, unrecognized container). -/
inductive DecodeError
  | Unreadable
  | MissingFile
  | UnrecognizedFormat
  deriving DecidableEq

/-- Modelled from the spec: color-transform failures of the missing
`handler::color_profile` module. -/
inductive ColorError
  | InvalidBufferSize
  deriving DecidableEq

/-- Modelled from the spec: encoding failures of the missing
`handler::format` module. -/
inductive EncodeError
  | UnsupportedDimensions
  | IoFailure
  | CodecFailure
  deriving DecidableEq

/-- The closed sum of error families; models the dynamic `Box<dyn Error>`
used throughout the source, tagged by the stage that produced it. -/
inductive ImfError
  | decode : DecodeError → ImfError
  | color : ColorError → ImfError
  | encode : EncodeError → ImfError
  deriving DecidableEq

/-- The concrete implementors of the `ImfconvColorProfile` trait.  The
source only ever boxes `RgbColor` or `Grayscale`, so the trait object is
modelled as this closed enum. -/
inductive ImfconvColorProfile
  | RgbColor
  | Grayscale
  deriving DecidableEq

/-- The concrete implementors of the `ImfconvHandler` trait.  The source
only ever boxes `JpegHandler`, `PngHandler` or `TiffHandler`, so the trait
object is modelled as this closed enum. -/
inductive ImfconvHandler
  | JpegHandler
  | PngHandler
  | TiffHandler
  deriving DecidableEq

/-- Modelled from the spec: the fixed per-pixel channel stride (RGB-8,
three bytes per pixel) assumed on both sides of the color/format seam. -/
def channelStride : Nat := 3

/-- Modelled from the spec: luminance as the fixed weighted sum
0.299 r + 0.587 g + 0.114 b, truncated and clamped to the 8-bit range. -/
def luminance (r g b : Nat) : Nat :=
  min 255 ((299 * r + 587 * g + 114 * b) / 1000)

/-- Modelled from the spec: per-pixel grayscale re-expansion — each RGB
triplet collapses to its luminance, re-expanded into the same three-channel
stride so downstream handlers see an unchanged layout. -/
def grayscalePixels : List Nat → List Nat
  | r :: g :: b :: rest => luminance r g b :: luminance r g b :: luminance r g b :: grayscalePixels rest
  | _ => []

/-- Modelled from the spec: `ImfconvColorProfile::edit` of the missing
`handler::color_profile` module.  The RGB variant is the identity
(pass-through); the GRAYSCALE variant fails with
`ColorError::InvalidBufferSize` when the buffer length does not agree with
width × height × channel stride, and otherwise maps each pixel to its
re-expanded luminance. -/
def ImfconvColorProfile.edit : ImfconvColorProfile → Nat → Nat → List Nat → Except ImfError (List Nat)
  | .RgbColor, _, _, buffer => .ok buffer
  | .Grayscale, w, h, buffer =>
    if buffer.length = w * h * channelStride then .ok (grayscalePixels buffer)
    else .error (.color .InvalidBufferSize)

/-- An observable file write: the destination path together with the triple
handed to the encoding collaborator and the handler that performed it. -/
structure FileWrite where
  path : String
  width : Nat
  height : Nat
  data : List Nat
  handler : ImfconvHandler
  deriving DecidableEq

/-- Modelled from the spec: `ImfconvHandler::exec` of the missing
`handler::format` module.  Fails with `EncodeError::UnsupportedDimensions`
when width or height is zero and with `EncodeError::CodecFailure` when the
encoder rejects the buffer (size mismatch against width × height × channel
stride); on success it performs exactly one write of the buffer to the
destination path, returned as the observable `FileWrite`.
(`EncodeError::IoFailure` concerns the file system, which lies outside the
embedding; no claim depends on it.) -/
def ImfconvHandler.exec (handler : ImfconvHandler) (w h : Nat) (buffer : List Nat)
    (dest : String) : Except ImfError FileWrite :=
  if w = 0 ∨ h = 0 then .error (.encode .UnsupportedDimensions)
  else if buffer.length ≠ w * h * channelStride then .error (.encode .CodecFailure)
  else .ok ⟨dest, w, h, buffer, handler⟩

/-- The image conversion pipeline (translated from the `Imfconv` struct). -/
structure Imfconv where
  image : List Nat
  w : Nat
  h : Nat
  format : ImfconvHandler
  color : ImfconvColorProfile
  dest_path : String
  deriving DecidableEq

/-- Translated from `Imfconv::new`.  The missing `reader::read_image`
collaborator is passed as the parameter `read_image` (spec §6: decode
returns `(width, height, pixels)` or a decode failure). -/
def Imfconv.new (read_image : String → Except ImfError (Nat × Nat × List Nat))
    (source_image_filepath : String) (destination_filepath : String) :
    Except ImfError Imfconv :=
  match read_image source_image_filepath with
  | .error e => .error e
  | .ok (w, h, i) =>
    .ok { image := i, w := w, h := h, format := .PngHandler, color := .RgbColor,
          dest_path := destination_filepath }

/-- Translated from `Imfconv::set_image_format`: consumes the pipeline and
returns a new value with only the format handler replaced. -/
def Imfconv.set_image_format (self : Imfconv) (image_type : ImageType) : Imfconv :=
  let f : ImfconvHandler :=
    match image_type with
    | .JPEG => .JpegHandler
    | .PNG => .PngHandler
    | .TIFF => .TiffHandler
  { image := self.image, w := self.w, h := self.h, format := f, color := self.color,
    dest_path := self.dest_path }

/-- Translated from `Imfconv::set_color_profile`: consumes the pipeline and
returns `Ok` of a new value with only the color strategy replaced. -/
def Imfconv.set_color_profile (self : Imfconv) (color_profile : ColorProfile) :
    Except ImfError Imfconv :=
  match color_profile with
  | .RGB =>
    .ok { image := self.image, w := self.w, h := self.h, format := self.format,
          color := .RgbColor, dest_path := self.dest_path }
  | .GRAYSCALE =>
    .ok { image := self.image, w := self.w, h := self.h, format := self.format,
          color := .Grayscale, dest_path := self.dest_path }

/-- The 1:1 mapping from a `ColorProfile` selector to the strategy the
source installs for it (the match arms of `Imfconv::set_color_profile`). -/
def profileStrategy : ColorProfile → ImfconvColorProfile
  | .RGB => .RgbColor
  | .GRAYSCALE => .Grayscale

deriving instance DecidableEq for Except

/-- The observable outcome of `Imfconv::convert`: the returned result, the
list of file writes performed, and the pipeline after the call.  `convert`
takes `&self`, so the post-state field models that the borrowed pipeline is
handed back to the caller. -/
structure ConvertResult where
  result : Except ImfError Unit
  writes : List FileWrite
  post : Imfconv
  deriving DecidableEq

/-- Translated from `Imfconv::convert`: runs the color strategy's `edit` on
`(w, h, image)`, returning its failure at once; otherwise runs the format
handler's `exec` on the edited buffer, mapping its success to `()` and
returning its failure.  Takes `&self` in the source, so the post-state is
the unchanged pipeline. -/
def Imfconv.convert (self : Imfconv) : ConvertResult :=
  match self.color.edit self.w self.h self.image with
  | .error e => { result := .error e, writes := [], post := self }
  | .ok image_with_profile =>
    match self.format.exec self.w self.h image_with_profile self.dest_path with
    | .ok fw => { result := .ok (), writes := [fw], post := self }
    | .error e => { result := .error e, writes := [], post := self }

/-- Pipeline states reachable through the public builder API with a fixed
decode collaborator: constructed by `new`, or obtained from a reachable
state by a strategy replacement. -/
inductive Reachable (read_image : String → Except ImfError (Nat × Nat × List Nat)) :
    Imfconv → Prop
  | constructed (src dest : String) (p : Imfconv) :
      Imfconv.new read_image src dest = .ok p → Reachable read_image p
  | setFormat (p : Imfconv) (t : ImageType) :
      Reachable read_image p → Reachable read_image (p.set_image_format t)
  | setColor (p q : Imfconv) (c : ColorProfile) :
      Reachable read_image p → p.set_color_profile c = .ok q → Reachable read_image q

/-- Helper: a successful `exec` writes exactly the supplied buffer to the
supplied destination with the supplied dimensions and handler. -/
theorem exec_ok_shape (f : ImfconvHandler) (w h : Nat) (buffer : List Nat)
    (dest : String) (fw : FileWrite) (hfw : f.exec w h buffer dest = .ok fw) :
    fw = ⟨dest, w, h, buffer, f⟩ := by
  unfold ImfconvHandler.exec at hfw
  split at hfw
  · cases hfw
  · split at hfw
    · cases hfw
    · cases hfw
      rfl

/-- C1: `convert()` runs the color strategy's `edit` on `(w, h, image)`
first and the format handler's `exec` second: when `edit` fails, its
failure is returned with no write performed and `exec` is never invoked
(the outcome is the same for every format handler); when `edit` succeeds
and `exec` fails, that failure is returned with no write; and the result is
unit exactly when both stages succeed, in which case the single write of
`exec` is performed. -/
theorem convert_stage_order (p : Imfconv) :
    (∀ e, p.color.edit p.w p.h p.image = .error e →
      (p.convert).result = .error e ∧ (p.convert).writes = [] ∧
      ∀ f : ImfconvHandler,
        ({ p with format := f } : Imfconv).convert.result = .error e ∧
        ({ p with format := f } : Imfconv).convert.writes = []) ∧
    (∀ b e, p.color.edit p.w p.h p.image = .ok b →
      p.format.exec p.w p.h b p.dest_path = .error e →
      (p.convert).result = .error e ∧ (p.convert).writes = []) ∧
    (∀ b fw, p.color.edit p.w p.h p.image = .ok b →
      p.format.exec p.w p.h b p.dest_path = .ok fw →
      (p.convert).result = .ok () ∧ (p.convert).writes = [fw]) ∧
    ((p.convert).result = .ok () ↔
      ∃ b fw, p.color.edit p.w p.h p.image = .ok b ∧
        p.format.exec p.w p.h b p.dest_path = .ok fw) := by
  refine ⟨?_, ?_, ?_, ?_⟩
  · intro e he
    refine ⟨?_, ?_, ?_⟩
    · simp [Imfconv.convert, he]
    · simp [Imfconv.convert, he]
    · intro f
      exact ⟨by simp [Imfconv.convert, he], by simp [Imfconv.convert, he]⟩
  · intro b e hb hex
    exact ⟨by simp [Imfconv.convert, hb, hex], by simp [Imfconv.convert, hb, hex]⟩
  · intro b fw hb hfw
    exact ⟨by simp [Imfconv.convert, hb, hfw], by simp [Imfconv.convert, hb, hfw]⟩
  · constructor
    · intro hok
      cases hedit : p.color.edit p.w p.h p.image with
      | error e => simp [Imfconv.convert, hedit] at hok
      | ok b =>
        cases hex : p.format.exec p.w p.h b p.dest_path with
        | error e => simp [Imfconv.convert, hedit, hex] at hok
        | ok fw => exact ⟨b, fw, rfl, hex⟩
    · rintro ⟨b, fw, hb, hfw⟩
      simp [Imfconv.convert, hb, hfw]

/-- C1 witness: on a grayscale 1×1 pipeline with a 1-byte buffer, `edit`
fails with `InvalidBufferSize` and `convert` returns exactly that failure
with no write. -/
theorem convert_stage_order_witness :
    ImfconvColorProfile.Grayscale.edit 1 1 [7] = .error (.color .InvalidBufferSize) ∧
    (Imfconv.convert ⟨[7], 1, 1, .PngHandler, .Grayscale, "out.png"⟩).result
      = .error (.color .InvalidBufferSize) ∧
    (Imfconv.convert ⟨[7], 1, 1, .PngHandler, .Grayscale, "out.png"⟩).writes = [] :=
  ⟨by decide,
    ((convert_stage_order ⟨[7], 1, 1, .PngHandler, .Grayscale, "out.png"⟩).1
      (.color .InvalidBufferSize) (by decide)).1,
    ((convert_stage_order ⟨[7], 1, 1, .PngHandler, .Grayscale, "out.png"⟩).1
      (.color .InvalidBufferSize) (by decide)).2.1⟩

/-- C2 counterexample: under the default RGB profile a 1×1 pipeline whose
buffer has length 2 (not 1 × 1 × 3) fails with `EncodeError::CodecFailure`
from the encoder, not with `ColorError::InvalidBufferSize` as the claim
attributes malformed buffers (the RGB `edit` is a pass-through and performs
no validation). -/
theorem convert_malformed_rgb_counterexample :
    (Imfconv.convert ⟨[0, 0], 1, 1, .PngHandler, .RgbColor, "out.png"⟩).result
      = .error (.encode .CodecFailure) ∧
    (Imfconv.convert ⟨[0, 0], 1, 1, .PngHandler, .RgbColor, "out.png"⟩).result
      ≠ .error (.color .InvalidBufferSize) ∧
    (Imfconv.convert ⟨[0, 0], 1, 1, .PngHandler, .RgbColor, "out.png"⟩).result
      ≠ .error (.encode .UnsupportedDimensions) := by
  decide

/-- C2 (amended): `convert()` on a 0×0 image (empty decoded buffer) fails
with `EncodeError::UnsupportedDimensions`, and on a buffer whose length
does not match width × height × channel stride it fails with
`ColorError::InvalidBufferSize` under the GRAYSCALE profile but with an
`EncodeError` under RGB — `CodecFailure` when both dimensions are nonzero,
`UnsupportedDimensions` when a dimension is zero; in every such case it
never panics (all definitions are total) and performs no file write. -/
theorem convert_boundary (p : Imfconv) :
    (p.w = 0 → p.h = 0 → p.image = [] →
      (p.convert).result = .error (.encode .UnsupportedDimensions) ∧
      (p.convert).writes = []) ∧
    (p.image.length ≠ p.w * p.h * channelStride →
      (p.color = .Grayscale →
        (p.convert).result = .error (.color .InvalidBufferSize)) ∧
      (p.color = .RgbColor → ¬(p.w = 0 ∨ p.h = 0) →
        (p.convert).result = .error (.encode .CodecFailure)) ∧
      (p.color = .RgbColor → (p.w = 0 ∨ p.h = 0) →
        (p.convert).result = .error (.encode .UnsupportedDimensions)) ∧
      (p.convert).writes = []) := by
  constructor
  · intro hw hh himg
    cases hc : p.color with
    | RgbColor =>
      constructor <;>
        simp [Imfconv.convert, ImfconvColorProfile.edit, ImfconvHandler.exec, hc, hw, himg]
    | Grayscale =>
      constructor <;>
        simp [Imfconv.convert, ImfconvColorProfile.edit, ImfconvHandler.exec, hc, hw, himg]
  · intro hlen
    refine ⟨?_, ?_, ?_, ?_⟩
    · intro hc
      simp [Imfconv.convert, ImfconvColorProfile.edit, hc, hlen]
    · intro hc hd
      simp [Imfconv.convert, ImfconvColorProfile.edit, ImfconvHandler.exec, hc, hd, hlen]
    · intro hc hd
      simp [Imfconv.convert, ImfconvColorProfile.edit, ImfconvHandler.exec, hc, hd]
    · cases hc : p.color with
      | RgbColor =>
        by_cases hd : p.w = 0 ∨ p.h = 0
        · simp [Imfconv.convert, ImfconvColorProfile.edit, ImfconvHandler.exec, hc, hd]
        · simp [Imfconv.convert, ImfconvColorProfile.edit, ImfconvHandler.exec, hc, hd, hlen]
      | Grayscale =>
        simp [Imfconv.convert, ImfconvColorProfile.edit, hc, hlen]

/-- C2 witness: `convert` on a 0×0 pipeline with an empty buffer returns
`UnsupportedDimensions` and writes nothing. -/
theorem convert_boundary_witness :
    (Imfconv.convert ⟨[], 0, 0, .PngHandler, .RgbColor, "o.png"⟩).result
      = .error (.encode .UnsupportedDimensions) ∧
    (Imfconv.convert ⟨[], 0, 0, .PngHandler, .RgbColor, "o.png"⟩).writes = [] :=
  (convert_boundary ⟨[], 0, 0, .PngHandler, .RgbColor, "o.png"⟩).1 rfl rfl rfl

/-- C4: the RGB strategy's `edit` is the identity on the pixel bytes for
every buffer, and a pipeline whose active profile is RGB hands the decoded
bytes to the format handler unchanged: every write `convert` performs
carries exactly the pipeline's stored image bytes. -/
theorem rgb_edit_identity :
    (∀ (w h : Nat) (buffer : List Nat),
      ImfconvColorProfile.RgbColor.edit w h buffer = .ok buffer) ∧
    (∀ p : Imfconv, p.color = .RgbColor →
      ∀ fw ∈ (p.convert).writes, fw.data = p.image) := by
  constructor
  · intro w h buffer
    rfl
  · intro p hp fw hfw
    unfold Imfconv.convert at hfw
    rw [hp] at hfw
    simp only [ImfconvColorProfile.edit] at hfw
    cases hex : p.format.exec p.w p.h p.image p.dest_path with
    | error e => simp [hex] at hfw
    | ok fw2 =>
      rw [hex] at hfw
      simp at hfw
      rw [hfw, exec_ok_shape p.format p.w p.h p.image p.dest_path fw2 hex]

/-- C4 witness: converting a well-formed 1×1 RGB pipeline performs one
write whose data is exactly the stored image bytes. -/
theorem rgb_edit_identity_witness :
    ImfconvColorProfile.RgbColor.edit 1 1 [1, 2, 3] = .ok [1, 2, 3] ∧
    (⟨"o.png", 1, 1, [1, 2, 3], .PngHandler⟩ : FileWrite)
        ∈ (Imfconv.convert ⟨[1, 2, 3], 1, 1, .PngHandler, .RgbColor, "o.png"⟩).writes ∧
    (⟨"o.png", 1, 1, [1, 2, 3], .PngHandler⟩ : FileWrite).data = [1, 2, 3] :=
  ⟨rgb_edit_identity.1 1 1 [1, 2, 3], by decide,
    rgb_edit_identity.2 ⟨[1, 2, 3], 1, 1, .PngHandler, .RgbColor, "o.png"⟩ rfl
      ⟨"o.png", 1, 1, [1, 2, 3], .PngHandler⟩ (by decide)⟩

/-- C3: a pipeline freshly constructed by `new` has the PNG handler and the
RGB strategy active as defaults, and every reachable pipeline state has
exactly one active color strategy and exactly one active format handler
(the struct holds a single strategy of each kind). -/
theorem new_defaults_and_unique_strategies
    (read_image : String → Except ImfError (Nat × Nat × List Nat)) :
    (∀ src dest p, Imfconv.new read_image src dest = .ok p →
      p.format = .PngHandler ∧ p.color = .RgbColor) ∧
    (∀ p, Reachable read_image p →
      (∃! f, p.format = f) ∧ (∃! c, p.color = c)) := by
  constructor
  · intro src dest p hp
    unfold Imfconv.new at hp
    cases hread : read_image src with
    | error e =>
      rw [hread] at hp
      cases hp
    | ok t =>
      obtain ⟨w, h, i⟩ := t
      rw [hread] at hp
      simp at hp
      rw [← hp]
      exact ⟨rfl, rfl⟩
  · intro p _
    exact ⟨⟨p.format, rfl, fun f hf => hf.symm⟩, ⟨p.color, rfl, fun c hc => hc.symm⟩⟩

/-- C3 witness: a concrete successful construction yields the PNG/RGB
defaults. -/
theorem new_defaults_and_unique_strategies_witness :
    (⟨[0, 0, 0], 1, 1, .PngHandler, .RgbColor, "b.png"⟩ : Imfconv).format = .PngHandler ∧
    (⟨[0, 0, 0], 1, 1, .PngHandler, .RgbColor, "b.png"⟩ : Imfconv).color = .RgbColor :=
  (new_defaults_and_unique_strategies (fun _ => .ok (1, 1, [0, 0, 0]))).1
    "a.png" "b.png" ⟨[0, 0, 0], 1, 1, .PngHandler, .RgbColor, "b.png"⟩ rfl

/-- C5: repeating a configuration call with the same argument is
idempotent: a second `set_image_format` with the same image type, or a
second `set_color_profile` with the same profile, yields a pipeline equal
to the one obtained from a single call. -/
theorem set_idempotent :
    (∀ (p : Imfconv) (t : ImageType),
      (p.set_image_format t).set_image_format t = p.set_image_format t) ∧
    (∀ (p q : Imfconv) (c : ColorProfile),
      p.set_color_profile c = .ok q → q.set_color_profile c = .ok q) := by
  constructor
  · intro p t
    cases t <;> rfl
  · intro p q c h
    cases c <;> (simp [Imfconv.set_color_profile] at h; rw [← h]; rfl)

/-- C5 witness: a concrete double application of each setter equals the
single application. -/
theorem set_idempotent_witness :
    ((⟨[1], 1, 1, .PngHandler, .RgbColor, "o"⟩ : Imfconv).set_image_format .JPEG).set_image_format .JPEG
      = (⟨[1], 1, 1, .PngHandler, .RgbColor, "o"⟩ : Imfconv).set_image_format .JPEG ∧
    Imfconv.set_color_profile ⟨[1], 1, 1, .PngHandler, .Grayscale, "o"⟩ .GRAYSCALE
      = .ok ⟨[1], 1, 1, .PngHandler, .Grayscale, "o"⟩ :=
  ⟨set_idempotent.1 ⟨[1], 1, 1, .PngHandler, .RgbColor, "o"⟩ .JPEG,
    set_idempotent.2 ⟨[1], 1, 1, .PngHandler, .RgbColor, "o"⟩
      ⟨[1], 1, 1, .PngHandler, .Grayscale, "o"⟩ .GRAYSCALE (by decide)⟩

/-- C6: when the decode of the source fails, `new` returns that failure
immediately and no pipeline value is constructed. -/
theorem new_propagates_decode_failure
    (read_image : String → Except ImfError (Nat × Nat × List Nat))
    (src dest : String) (e : ImfError) (h : read_image src = .error e) :
    Imfconv.new read_image src dest = .error e ∧
    ∀ p : Imfconv, Imfconv.new read_image src dest ≠ .ok p := by
  have hnew : Imfconv.new read_image src dest = .error e := by
    unfold Imfconv.new
    rw [h]
  exact ⟨hnew, fun p hp => by rw [hnew] at hp; cases hp⟩

/-- C6 witness: an unreadable source (decode always fails) makes `new`
return the `DecodeError` unchanged. -/
theorem new_propagates_decode_failure_witness :
    Imfconv.new (fun _ => .error (.decode .Unreadable)) "bad.png" "o.png"
      = .error (.decode .Unreadable) :=
  (new_propagates_decode_failure (fun _ => .error (.decode .Unreadable))
    "bad.png" "o.png" (.decode .Unreadable) rfl).1

/-- C7: `set_color_profile` returns `Ok` for every profile value, and the
strategy it installs is the 1:1 (injective) image of the selected profile. -/
theorem set_color_profile_total :
    (∀ (p : Imfconv) (c : ColorProfile),
      ∃ q, p.set_color_profile c = .ok q ∧ q.color = profileStrategy c) ∧
    Function.Injective profileStrategy := by
  constructor
  · intro p c
    cases c
    · exact ⟨_, rfl, rfl⟩
    · exact ⟨_, rfl, rfl⟩
  · intro a b hab
    cases a <;> cases b <;> simp_all [profileStrategy]

/-- C7 witness: selecting GRAYSCALE on a concrete pipeline succeeds and
installs the Grayscale strategy. -/
theorem set_color_profile_total_witness :
    ∃ q, Imfconv.set_color_profile ⟨[1], 1, 1, .PngHandler, .RgbColor, "o"⟩ .GRAYSCALE
      = .ok q ∧ q.color = profileStrategy .GRAYSCALE :=
  set_color_profile_total.1 ⟨[1], 1, 1, .PngHandler, .RgbColor, "o"⟩ .GRAYSCALE

/-- C8: the strategy setters are frame-preserving functional updates on a
fresh pipeline value: `set_image_format` leaves the image bytes, width,
height, color strategy and destination path unchanged, and
`set_color_profile` leaves the image bytes, width, height, format handler
and destination path unchanged. -/
theorem set_frame (p : Imfconv) (t : ImageType) (c : ColorProfile) :
    ((p.set_image_format t).image = p.image ∧
     (p.set_image_format t).w = p.w ∧
     (p.set_image_format t).h = p.h ∧
     (p.set_image_format t).color = p.color ∧
     (p.set_image_format t).dest_path = p.dest_path) ∧
    (∀ q, p.set_color_profile c = .ok q →
      q.image = p.image ∧ q.w = p.w ∧ q.h = p.h ∧ q.format = p.format ∧
      q.dest_path = p.dest_path) := by
  constructor
  · exact ⟨rfl, rfl, rfl, rfl, rfl⟩
  · intro q hq
    cases c <;>
      (simp [Imfconv.set_color_profile] at hq; rw [← hq]; exact ⟨rfl, rfl, rfl, rfl, rfl⟩)

/-- C8 witness: the concrete GRAYSCALE update changes only the color
strategy of a concrete pipeline. -/
theorem set_frame_witness :
    Imfconv.set_color_profile ⟨[5], 1, 1, .PngHandler, .RgbColor, "d.png"⟩ .GRAYSCALE
      = .ok ⟨[5], 1, 1, .PngHandler, .Grayscale, "d.png"⟩ ∧
    ((⟨[5], 1, 1, .PngHandler, .Grayscale, "d.png"⟩ : Imfconv).image
        = (⟨[5], 1, 1, .PngHandler, .RgbColor, "d.png"⟩ : Imfconv).image ∧
      (⟨[5], 1, 1, .PngHandler, .Grayscale, "d.png"⟩ : Imfconv).w
        = (⟨[5], 1, 1, .PngHandler, .RgbColor, "d.png"⟩ : Imfconv).w ∧
      (⟨[5], 1, 1, .PngHandler, .Grayscale, "d.png"⟩ : Imfconv).h
        = (⟨[5], 1, 1, .PngHandler, .RgbColor, "d.png"⟩ : Imfconv).h ∧
      (⟨[5], 1, 1, .PngHandler, .Grayscale, "d.png"⟩ : Imfconv).format
        = (⟨[5], 1, 1, .PngHandler, .RgbColor, "d.png"⟩ : Imfconv).format ∧
      (⟨[5], 1, 1, .PngHandler, .Grayscale, "d.png"⟩ : Imfconv).dest_path
        = (⟨[5], 1, 1, .PngHandler, .RgbColor, "d.png"⟩ : Imfconv).dest_path) :=
  ⟨by decide,
    (set_frame ⟨[5], 1, 1, .PngHandler, .RgbColor, "d.png"⟩ .JPEG .GRAYSCALE).2
      ⟨[5], 1, 1, .PngHandler, .Grayscale, "d.png"⟩ (by decide)⟩

/-- C9: `convert` borrows the pipeline immutably (`&self`): whatever the
outcome, the pipeline after the call is the same value — same image bytes,
dimensions, strategies and destination path — and invoking `convert` on it
again yields the identical outcome. -/
theorem convert_preserves_self (p : Imfconv) :
    (p.convert).post = p ∧ ((p.convert).post).convert = p.convert := by
  have h : (p.convert).post = p := by
    unfold Imfconv.convert
    split
    · rfl
    · split <;> rfl
  exact ⟨h, by rw [h]⟩

/-- C10: on decode success, `new` stores the decoded width, height and
pixel bytes unmodified, the given destination path verbatim, and the
default strategies. -/
theorem new_stores_decode_result
    (read_image : String → Except ImfError (Nat × Nat × List Nat))
    (src dest : String) (w h : Nat) (i : List Nat)
    (hread : read_image src = .ok (w, h, i)) :
    Imfconv.new read_image src dest
      = .ok ⟨i, w, h, .PngHandler, .RgbColor, dest⟩ := by
  unfold Imfconv.new
  rw [hread]

/-- C10 witness: a concrete decode result is stored verbatim. -/
theorem new_stores_decode_result_witness :
    Imfconv.new (fun _ => .ok (2, 1, [255, 0, 0, 0, 255, 0])) "s.png" "d.png"
      = .ok ⟨[255, 0, 0, 0, 255, 0], 2, 1, .PngHandler, .RgbColor, "d.png"⟩ :=
  new_stores_decode_result (fun _ => .ok (2, 1, [255, 0, 0, 0, 255, 0])) "s.png" "d.png"
    2 1 [255, 0, 0, 0, 255, 0] rfl
